import Mathlib

/-!
Verification of the rebalancing-vs-buy-and-hold simulator (`src/app.py`).

The simulation core (lines 90–152 of the source) is embedded shallowly:

* prices are modeled as a total function `Nat → Fin n → ℚ` giving the close
  price of asset `t` at (zero-based) date index `i`; dates themselves are
  identified with their index in the aligned price table, since the source
  only uses the row position (`prices_df.iloc[i]`) for all numeric work;
* Python float arithmetic is modeled by exact rational arithmetic over `ℚ`;
* the per-day loop body becomes `step`, the state reached before valuing
  date `i` becomes `stateAt cfg i`, and the rebalance history list becomes
  `rebLog`, a `filterMap` over the date range, exactly as the source appends
  `log_row` to `rebalance_log` inside the `if i > 0 and i % rebalance_period == 0`
  branch.
-/

namespace Rebalance

/-- Configuration of one simulation run: number of assets (`n_assets`),
number of rows of the aligned price table, the price table itself,
`initial_equity`, and `rebalance_period`. -/
structure Config where
  nAssets : Nat
  nDates : Nat
  price : Nat → Fin nAssets → ℚ
  initialEquity : ℚ
  rebalancePeriod : Nat

/-- `target_weight = 1 / n_assets` (line 91 of the source). -/
def targetWeight (cfg : Config) : ℚ := 1 / (cfg.nAssets : ℚ)

/-- Initial allocation (lines 104–108): `alloc = initial_equity * target_weight`,
`shares = alloc / prices_df.iloc[0][t]`, identical for both trackers. -/
def initShares (cfg : Config) (t : Fin cfg.nAssets) : ℚ :=
  cfg.initialEquity * targetWeight cfg / cfg.price 0 t

/-- Mutable state carried across loop iterations: the two share-count maps
`shares_reb` and `shares_hold` (lines 93–94). -/
structure SimState (cfg : Config) where
  sharesReb : Fin cfg.nAssets → ℚ
  sharesHold : Fin cfg.nAssets → ℚ

/-- One row of `rebalance_log` (lines 134–146): the date index it is keyed by,
and per asset the pre-rebalance equity, drift percentage and transfer. -/
structure RebalanceEvent (cfg : Config) where
  dateIdx : Nat
  preValue : Fin cfg.nAssets → ℚ
  driftPct : Fin cfg.nAssets → ℚ
  transfer : Fin cfg.nAssets → ℚ

/-- Value of a share-count map at one asset on one date:
`shares[t] * prices_df.iloc[i][t]` (lines 117–118). -/
def trackerValue (cfg : Config) (shares : Fin cfg.nAssets → ℚ) (i : Nat)
    (t : Fin cfg.nAssets) : ℚ :=
  shares t * cfg.price i t

/-- Total value of a share-count map on one date (the running sums of
lines 126–127). -/
def trackerTotal (cfg : Config) (shares : Fin cfg.nAssets → ℚ) (i : Nat) : ℚ :=
  ∑ t, trackerValue cfg shares i t

/-- `target_value = total_reb * target_weight` (line 133), computed from the
rebalanced tracker's total on the rebalance date. -/
def rebTarget (cfg : Config) (st : SimState cfg) (i : Nat) : ℚ :=
  trackerTotal cfg st.sharesReb i * targetWeight cfg

/-- Body of the simulation loop for date index `i` (lines 110–146), restricted
to its state effect: on a cadence boundary (`i > 0 and i % rebalance_period == 0`,
line 132) the rebalanced tracker is reallocated to `target_value / price`
(line 144) and one `RebalanceEvent` is emitted (lines 134–146); otherwise the
state is unchanged and no event is emitted.  `shares_hold` is never written. -/
def step (cfg : Config) (st : SimState cfg) (i : Nat) :
    SimState cfg × Option (RebalanceEvent cfg) :=
  if 0 < i ∧ i % cfg.rebalancePeriod = 0 then
    (⟨fun t => rebTarget cfg st i / cfg.price i t, st.sharesHold⟩,
     some ⟨i,
       fun t => trackerValue cfg st.sharesReb i t,
       fun t => (trackerValue cfg st.sharesReb i t / rebTarget cfg st i - 1) * 100,
       fun t => rebTarget cfg st i - trackerValue cfg st.sharesReb i t⟩)
  else (st, none)

/-- State held when valuing date index `i`: the initial allocation for `i = 0`,
then the result of the loop body of date `i - 1`. -/
def stateAt (cfg : Config) : Nat → SimState cfg
  | 0 => ⟨initShares cfg, initShares cfg⟩
  | i + 1 => (step cfg (stateAt cfg i) i).1

/-- Rebalanced tracker's equity-curve entry for asset `t` at date `i`
(`equity_reb_curves[t][i]`, line 120). -/
def valuesReb (cfg : Config) (i : Nat) (t : Fin cfg.nAssets) : ℚ :=
  trackerValue cfg (stateAt cfg i).sharesReb i t

/-- Buy-and-hold tracker's equity-curve entry for asset `t` at date `i`
(`equity_hold_curves[t][i]`, line 121). -/
def valuesHold (cfg : Config) (i : Nat) (t : Fin cfg.nAssets) : ℚ :=
  trackerValue cfg (stateAt cfg i).sharesHold i t

/-- `portfolio_reb_curve[i]` (line 129). -/
def totalReb (cfg : Config) (i : Nat) : ℚ :=
  trackerTotal cfg (stateAt cfg i).sharesReb i

/-- `portfolio_hold_curve[i]` (line 130). -/
def totalHold (cfg : Config) (i : Nat) : ℚ :=
  trackerTotal cfg (stateAt cfg i).sharesHold i

/-- The `rebalance_log` list (line 102, appended at line 146): one event per
date index in range that satisfies the cadence predicate, in index order. -/
def rebLog (cfg : Config) : List (RebalanceEvent cfg) :=
  (List.range cfg.nDates).filterMap fun i => (step cfg (stateAt cfg i) i).2

/-- The simulation's numeric output: both portfolio curves and the list of
rebalance-event date indices (the data content of lines 148–152 and 189–204). -/
def simulate (cfg : Config) : List ℚ × List ℚ × List Nat :=
  ((List.range cfg.nDates).map (totalReb cfg),
   (List.range cfg.nDates).map (totalHold cfg),
   (rebLog cfg).map (fun ev => ev.dateIdx))

/-- Errors surfaced by the application layer before or instead of simulating:
the ticker-count gate of lines 39–41 (`st.warning` + `st.stop`) and the
empty-download gate of lines 52–54 (`st.error` + `st.stop`). -/
inductive AppError where
  | tickerCount : Nat → AppError
  | noData : Nat → AppError
  deriving DecidableEq

/-- The run path of lines 37–63 followed by the simulation: the ticker-count
check of lines 39–41 runs first, and only in its success branch is the price
data consulted at all (the download loop of lines 48–59 and everything after
it are inside that branch).  Data retrieval and alignment are external
collaborators, so the fetched, aligned price table is abstracted as the pure
function `fetch` from asset index and date index to price. -/
def runApp (nTickers nDates : Nat) (fetch : Nat → Nat → ℚ) (E : ℚ) (P : Nat) :
    Except AppError (List ℚ × List ℚ × List Nat) :=
  if 2 ≤ nTickers ∧ nTickers ≤ 5 then
    Except.ok (simulate ⟨nTickers, nDates, fun i t => fetch t.val i, E, P⟩)
  else
    Except.error (AppError.tickerCount nTickers)

/-- Price series of asset A in the spec's worked scenario: 100, 110, 121. -/
def scPriceA : Nat → ℚ
  | 0 => 100
  | 1 => 110
  | 2 => 121
  | _ + 3 => 1

/-- Price series of asset B in the spec's worked scenario: 200, 190, 180.5. -/
def scPriceB : Nat → ℚ
  | 0 => 200
  | 1 => 190
  | 2 => 361 / 2
  | _ + 3 => 1

/-- The spec's worked scenario: 2 assets (index 0 is A, index 1 is B),
3 dates, initial equity 1,000,000, rebalance period 2. -/
abbrev scenario : Config :=
  ⟨2, 3, fun i t => if t.val = 0 then scPriceA i else scPriceB i, 1000000, 2⟩

/-- A configuration whose asset A has a negative price on every date
(asset B costs 200): used to exercise the division paths on corrupt data. -/
abbrev cfgNeg : Config :=
  ⟨2, 3, fun _ t => if t.val = 0 then -100 else 200, 1000000, 2⟩

/-- Two assets with identical, constant prices: every asset is always exactly
at its equal-weight target, so any rebalance transfers zero. -/
abbrev cfgFlat : Config :=
  ⟨2, 2, fun _ _ => 100, 1000, 1⟩

/-- The scenario prices but with rebalance period 5 > number of dates − 1 = 2,
so the cadence predicate never fires. -/
abbrev cfgNoReb : Config :=
  ⟨2, 3, scenario.price, 1000000, 5⟩

/-- The one rebalance event of the worked scenario, at date index 2, exactly
as the loop body constructs it. -/
def scenarioEvent : RebalanceEvent scenario :=
  ⟨2, fun t => trackerValue scenario (stateAt scenario 2).sharesReb 2 t,
    fun t => (trackerValue scenario (stateAt scenario 2).sharesReb 2 t /
        rebTarget scenario (stateAt scenario 2) 2 - 1) * 100,
    fun t => rebTarget scenario (stateAt scenario 2) 2 -
        trackerValue scenario (stateAt scenario 2).sharesReb 2 t⟩

section StepLemmas

variable (cfg : Config)

theorem step_snd_due (st : SimState cfg) (i : Nat)
    (h : 0 < i ∧ i % cfg.rebalancePeriod = 0) :
    (step cfg st i).2 = some ⟨i,
      fun t => trackerValue cfg st.sharesReb i t,
      fun t => (trackerValue cfg st.sharesReb i t / rebTarget cfg st i - 1) * 100,
      fun t => rebTarget cfg st i - trackerValue cfg st.sharesReb i t⟩ := by
  simp [step, h]

theorem step_snd_not_due (st : SimState cfg) (i : Nat)
    (h : ¬(0 < i ∧ i % cfg.rebalancePeriod = 0)) :
    (step cfg st i).2 = none := by
  simp [step, h]

theorem step_fst_due (st : SimState cfg) (i : Nat)
    (h : 0 < i ∧ i % cfg.rebalancePeriod = 0) :
    (step cfg st i).1 = ⟨fun t => rebTarget cfg st i / cfg.price i t, st.sharesHold⟩ := by
  simp [step, h]

theorem step_fst_not_due (st : SimState cfg) (i : Nat)
    (h : ¬(0 < i ∧ i % cfg.rebalancePeriod = 0)) :
    (step cfg st i).1 = st := by
  simp [step, h]

theorem step_fst_hold (st : SimState cfg) (i : Nat) :
    ((step cfg st i).1).sharesHold = st.sharesHold := by
  by_cases h : 0 < i ∧ i % cfg.rebalancePeriod = 0
  · rw [step_fst_due cfg st i h]
  · rw [step_fst_not_due cfg st i h]

/-- The buy-and-hold share map is never written after the initial allocation. -/
theorem sharesHold_eq_init : ∀ i, (stateAt cfg i).sharesHold = initShares cfg
  | 0 => rfl
  | i + 1 => by
    rw [stateAt, step_fst_hold cfg (stateAt cfg i) i]
    exact sharesHold_eq_init i

end StepLemmas

section ScenarioFacts

theorem scenario_price_A (i : Nat) : scenario.price i 0 = scPriceA i := rfl

theorem scenario_price_B (i : Nat) : scenario.price i 1 = scPriceB i := rfl

theorem scenario_init_A : initShares scenario 0 = 5000 := by
  rw [initShares, targetWeight, scenario_price_A]
  norm_num [scPriceA]

theorem scenario_init_B : initShares scenario 1 = 2500 := by
  rw [initShares, targetWeight, scenario_price_B]
  norm_num [scPriceB]

theorem scenario_state1 : stateAt scenario 1 = stateAt scenario 0 :=
  step_fst_not_due scenario (stateAt scenario 0) 0 (by decide)

theorem scenario_state2 : stateAt scenario 2 = stateAt scenario 0 :=
  (step_fst_not_due scenario (stateAt scenario 1) 1 (by decide)).trans scenario_state1

theorem scenario_value_1A : valuesReb scenario 1 0 = 550000 := by
  rw [valuesReb, trackerValue, scenario_state1, scenario_price_A]
  show initShares scenario 0 * scPriceA 1 = 550000
  rw [scenario_init_A]
  norm_num [scPriceA]

theorem scenario_value_1B : valuesReb scenario 1 1 = 475000 := by
  rw [valuesReb, trackerValue, scenario_state1, scenario_price_B]
  show initShares scenario 1 * scPriceB 1 = 475000
  rw [scenario_init_B]
  norm_num [scPriceB]

theorem scenario_total_1 : totalReb scenario 1 = 1025000 := by
  rw [totalReb, trackerTotal, Fin.sum_univ_two]
  show valuesReb scenario 1 0 + valuesReb scenario 1 1 = 1025000
  rw [scenario_value_1A, scenario_value_1B]
  norm_num

theorem scenario_value_2A : valuesReb scenario 2 0 = 605000 := by
  rw [valuesReb, trackerValue, scenario_state2, scenario_price_A]
  show initShares scenario 0 * scPriceA 2 = 605000
  rw [scenario_init_A]
  norm_num [scPriceA]

theorem scenario_value_2B : valuesReb scenario 2 1 = 451250 := by
  rw [valuesReb, trackerValue, scenario_state2, scenario_price_B]
  show initShares scenario 1 * scPriceB 2 = 451250
  rw [scenario_init_B]
  norm_num [scPriceB]

theorem scenario_total_2 : totalReb scenario 2 = 1056250 := by
  rw [totalReb, trackerTotal, Fin.sum_univ_two]
  show valuesReb scenario 2 0 + valuesReb scenario 2 1 = 1056250
  rw [scenario_value_2A, scenario_value_2B]
  norm_num

theorem scenario_target_2 : rebTarget scenario (stateAt scenario 2) 2 = 528125 := by
  rw [rebTarget, targetWeight]
  show totalReb scenario 2 * (1 / (2 : ℚ)) = 528125
  rw [scenario_total_2]
  norm_num

theorem scenario_rebLog : rebLog scenario = [scenarioEvent] := by
  have hrange : List.range scenario.nDates = [0, 1, 2] := by decide
  rw [rebLog, hrange]
  rw [List.filterMap_cons, List.filterMap_cons, List.filterMap_cons, List.filterMap_nil,
    step_snd_not_due scenario _ 0 (by decide),
    step_snd_not_due scenario _ 1 (by decide),
    step_snd_due scenario _ 2 (by decide)]
  rfl

theorem scenarioEvent_mem : scenarioEvent ∈ rebLog scenario := by
  rw [scenario_rebLog]
  exact List.mem_singleton.mpr rfl

theorem scenarioEvent_preValue_A : scenarioEvent.preValue 0 = 605000 :=
  scenario_value_2A

theorem scenarioEvent_preValue_B : scenarioEvent.preValue 1 = 451250 :=
  scenario_value_2B

theorem scenarioEvent_drift_A : scenarioEvent.driftPct 0 = 2460 / 169 := by
  show (trackerValue scenario (stateAt scenario 2).sharesReb 2 0 /
      rebTarget scenario (stateAt scenario 2) 2 - 1) * 100 = 2460 / 169
  rw [scenario_target_2]
  rw [show trackerValue scenario (stateAt scenario 2).sharesReb 2 0 =
    valuesReb scenario 2 0 from rfl, scenario_value_2A]
  norm_num

theorem scenarioEvent_transfer_A : scenarioEvent.transfer 0 = -76875 := by
  show rebTarget scenario (stateAt scenario 2) 2 -
      trackerValue scenario (stateAt scenario 2).sharesReb 2 0 = -76875
  rw [scenario_target_2]
  rw [show trackerValue scenario (stateAt scenario 2).sharesReb 2 0 =
    valuesReb scenario 2 0 from rfl, scenario_value_2A]
  norm_num

theorem scenarioEvent_transfer_B : scenarioEvent.transfer 1 = 76875 := by
  show rebTarget scenario (stateAt scenario 2) 2 -
      trackerValue scenario (stateAt scenario 2).sharesReb 2 1 = 76875
  rw [scenario_target_2]
  rw [show trackerValue scenario (stateAt scenario 2).sharesReb 2 1 =
    valuesReb scenario 2 1 from rfl, scenario_value_2B]
  norm_num

theorem scenario_post_shares_A : (stateAt scenario 3).sharesReb 0 = 528125 / 121 := by
  show ((step scenario (stateAt scenario 2) 2).1).sharesReb 0 = 528125 / 121
  rw [step_fst_due scenario _ 2 (by decide)]
  show rebTarget scenario (stateAt scenario 2) 2 / scenario.price 2 0 = 528125 / 121
  rw [scenario_target_2, scenario_price_A]
  norm_num [scPriceA]

theorem scenario_post_shares_B : (stateAt scenario 3).sharesReb 1 = 1056250 / 361 := by
  show ((step scenario (stateAt scenario 2) 2).1).sharesReb 1 = 1056250 / 361
  rw [step_fst_due scenario _ 2 (by decide)]
  show rebTarget scenario (stateAt scenario 2) 2 / scenario.price 2 1 = 1056250 / 361
  rw [scenario_target_2, scenario_price_B]
  rw [show scPriceB 2 = 361 / 2 from rfl]
  norm_num

theorem scenario_price_pos : ∀ (i : Nat) (t : Fin 2), 0 < scenario.price i t := by
  intro i t
  match t with
  | 0 =>
    rw [scenario_price_A]
    match i with
    | 0 => norm_num [scPriceA]
    | 1 => norm_num [scPriceA]
    | 2 => norm_num [scPriceA]
    | j + 3 => norm_num [scPriceA]
  | 1 =>
    rw [scenario_price_B]
    match i with
    | 0 => norm_num [scPriceB]
    | 1 => norm_num [scPriceB]
    | 2 => norm_num [scPriceB]
    | j + 3 => norm_num [scPriceB]

theorem scenario_price_ne (t : Fin 2) : scenario.price 2 t ≠ 0 :=
  (scenario_price_pos 2 t).ne'

end ScenarioFacts

section NegativePriceFacts

theorem cfgNeg_log_dates : ((rebLog cfgNeg).map fun ev => ev.dateIdx) = [2] := by
  have hrange : List.range cfgNeg.nDates = [0, 1, 2] := by decide
  rw [rebLog, hrange, List.filterMap_cons, List.filterMap_cons, List.filterMap_cons,
    List.filterMap_nil,
    step_snd_not_due cfgNeg _ 0 (by decide),
    step_snd_not_due cfgNeg _ 1 (by decide),
    step_snd_due cfgNeg _ 2 (by decide)]
  rfl

end NegativePriceFacts

section GeneralLemmas

/-- The transfers `total * (1/n) − v t` of one rebalance event sum to zero:
`n` copies of the target exactly exhaust the total being redistributed. -/
theorem sum_sub_avg (n : Nat) (v : Fin n → ℚ) :
    ∑ t, ((∑ s, v s) * (1 / (n : ℚ)) - v t) = 0 := by
  rcases Nat.eq_zero_or_pos n with hn | hn
  · subst hn
    simp
  · have h0 : (n : ℚ) ≠ 0 := Nat.cast_ne_zero.mpr hn.ne'
    rw [Finset.sum_sub_distrib, Finset.sum_const, Finset.card_univ, Fintype.card_fin,
      nsmul_eq_mul]
    field_simp

/-- If the rebalance period exceeds the last date index, the cadence predicate
of line 132 is false on every date of the series. -/
theorem not_due_of_large_period (cfg : Config)
    (h : cfg.nDates - 1 < cfg.rebalancePeriod) {i : Nat} (hi : i < cfg.nDates) :
    ¬(0 < i ∧ i % cfg.rebalancePeriod = 0) := by
  rintro ⟨h0, hm⟩
  have hle : cfg.rebalancePeriod ≤ i := Nat.le_of_dvd h0 (Nat.dvd_of_mod_eq_zero hm)
  omega

theorem stateAt_const_of_large_period (cfg : Config)
    (h : cfg.nDates - 1 < cfg.rebalancePeriod) :
    ∀ i, i ≤ cfg.nDates → stateAt cfg i = stateAt cfg 0 := by
  intro i
  induction i with
  | zero => intro _; rfl
  | succ i ih =>
    intro hi
    have hlt : i < cfg.nDates := by omega
    calc stateAt cfg (i + 1) = (step cfg (stateAt cfg i) i).1 := rfl
    _ = stateAt cfg i := step_fst_not_due cfg _ i (not_due_of_large_period cfg h hlt)
    _ = stateAt cfg 0 := ih (by omega)

theorem rebLog_nil_of_large_period (cfg : Config)
    (h : cfg.nDates - 1 < cfg.rebalancePeriod) : rebLog cfg = [] := by
  rw [rebLog]
  refine List.filterMap_eq_nil_iff.mpr fun i hi => ?_
  exact step_snd_not_due cfg _ i (not_due_of_large_period cfg h (List.mem_range.mp hi))

theorem filterMap_step_cons_due (cfg : Config) (a : Nat) (l : List Nat)
    (h : 0 < a ∧ a % cfg.rebalancePeriod = 0) :
    ((a :: l).filterMap fun i => (step cfg (stateAt cfg i) i).2) =
      (⟨a, fun t => trackerValue cfg (stateAt cfg a).sharesReb a t,
        fun t => (trackerValue cfg (stateAt cfg a).sharesReb a t /
          rebTarget cfg (stateAt cfg a) a - 1) * 100,
        fun t => rebTarget cfg (stateAt cfg a) a -
          trackerValue cfg (stateAt cfg a).sharesReb a t⟩ : RebalanceEvent cfg) ::
      (l.filterMap fun i => (step cfg (stateAt cfg i) i).2) := by
  rw [List.filterMap_cons, step_snd_due cfg _ a h]

theorem filterMap_step_cons_not_due (cfg : Config) (a : Nat) (l : List Nat)
    (h : ¬(0 < a ∧ a % cfg.rebalancePeriod = 0)) :
    ((a :: l).filterMap fun i => (step cfg (stateAt cfg i) i).2) =
      l.filterMap fun i => (step cfg (stateAt cfg i) i).2 := by
  rw [List.filterMap_cons, step_snd_not_due cfg _ a h]

/-- Mapping each emitted event to its date index turns the `filterMap` of the
loop into a plain `filter` by the cadence predicate. -/
theorem map_dateIdx_filterMap (cfg : Config) (l : List Nat) :
    ((l.filterMap fun i => (step cfg (stateAt cfg i) i).2).map fun ev => ev.dateIdx) =
      l.filter fun i => decide (0 < i ∧ i % cfg.rebalancePeriod = 0) := by
  induction l with
  | nil => rfl
  | cons a l ih =>
    by_cases h : 0 < a ∧ a % cfg.rebalancePeriod = 0
    · rw [filterMap_step_cons_due cfg a l h, List.map_cons, ih,
        List.filter_cons, if_pos (decide_eq_true h)]
    · rw [filterMap_step_cons_not_due cfg a l h, ih,
        List.filter_cons, if_neg (fun hc => h (of_decide_eq_true hc))]

end GeneralLemmas

/-- Claim C1: every rebalance event in the log has per-asset transfers
(`target_value − pre_rebalance_value`, target recomputed from that day's
rebalanced total) summing to exactly zero — a closed system with no external
cash flow.  Over exact rational arithmetic the sum is identically `0`. -/
theorem transfer_conservation (cfg : Config) (ev : RebalanceEvent cfg)
    (hev : ev ∈ rebLog cfg) : ∑ t, ev.transfer t = 0 := by
  obtain ⟨i, _, hstep⟩ := List.mem_filterMap.mp hev
  by_cases h : 0 < i ∧ i % cfg.rebalancePeriod = 0
  · rw [step_snd_due cfg _ i h] at hstep
    obtain rfl := Option.some.inj hstep
    exact sum_sub_avg cfg.nAssets fun t => trackerValue cfg (stateAt cfg i).sharesReb i t
  · rw [step_snd_not_due cfg _ i h] at hstep
    exact Option.noConfusion hstep

/-- Witness for C1 at the worked scenario: its (unique) rebalance event, at
date index 2, has transfers summing to zero. -/
theorem transfer_conservation_witness :
    scenarioEvent ∈ rebLog scenario ∧ ∑ t, scenarioEvent.transfer t = 0 :=
  ⟨scenarioEvent_mem, transfer_conservation scenario scenarioEvent scenarioEvent_mem⟩

/-- Claim C2: immediately after the rebalance action at date index `i`
(predicate `i > 0 ∧ i % period = 0`, date in range, nonzero same-day prices),
every asset's rebalanced value — new share count times the same day's price —
equals `total / N` where `total` is the rebalanced tracker's total at row `i`. -/
theorem equal_weight_post_rebalance (cfg : Config) (i : Nat)
    (h0 : 0 < i) (hm : i % cfg.rebalancePeriod = 0) (_hi : i < cfg.nDates)
    (hp : ∀ t, cfg.price i t ≠ 0) (t : Fin cfg.nAssets) :
    (stateAt cfg (i + 1)).sharesReb t * cfg.price i t =
      totalReb cfg i / (cfg.nAssets : ℚ) := by
  have hstep : stateAt cfg (i + 1) = (step cfg (stateAt cfg i) i).1 := rfl
  rw [hstep, step_fst_due cfg _ i ⟨h0, hm⟩]
  show rebTarget cfg (stateAt cfg i) i / cfg.price i t * cfg.price i t = _
  rw [div_mul_cancel₀ _ (hp t), rebTarget, targetWeight, mul_one_div]
  rfl

/-- Witness for C2 at the worked scenario, rebalance date index 2, asset A. -/
theorem equal_weight_post_rebalance_witness :
    (0 < 2 ∧ 2 % scenario.rebalancePeriod = 0 ∧ 2 < scenario.nDates ∧
      ∀ t, scenario.price 2 t ≠ 0) ∧
    (stateAt scenario 3).sharesReb 0 * scenario.price 2 0 =
      totalReb scenario 2 / (scenario.nAssets : ℚ) :=
  ⟨⟨by decide, by decide, by decide, scenario_price_ne⟩,
   equal_weight_post_rebalance scenario 2 (by decide) (by decide) (by decide)
     scenario_price_ne 0⟩

/-- Claim C3: the buy-and-hold share map is written exactly once, at
initialization (`(initial_equity / N) / price_at_t0` per asset), and at every
date index it still equals that initial map — the loop never mutates it. -/
theorem buy_hold_shares_constant (cfg : Config) :
    (∀ t, initShares cfg t = cfg.initialEquity / (cfg.nAssets : ℚ) / cfg.price 0 t) ∧
    ∀ i, (stateAt cfg i).sharesHold = initShares cfg := by
  constructor
  · intro t
    rw [initShares, targetWeight, mul_one_div]
  · exact sharesHold_eq_init cfg

/-- Claim C4: when `rebalance_period > nDates − 1` the rebalance log is empty
and the rebalanced equity curve coincides with the buy-and-hold curve,
per asset and in total, at every date index. -/
theorem no_rebalance_case (cfg : Config) (h : cfg.nDates - 1 < cfg.rebalancePeriod) :
    rebLog cfg = [] ∧
    ∀ i, i < cfg.nDates →
      (∀ t, valuesReb cfg i t = valuesHold cfg i t) ∧
      totalReb cfg i = totalHold cfg i := by
  refine ⟨rebLog_nil_of_large_period cfg h, fun i hi => ?_⟩
  have hsh : (stateAt cfg i).sharesReb = (stateAt cfg i).sharesHold := by
    rw [stateAt_const_of_large_period cfg h i hi.le]
    rfl
  constructor
  · intro t
    rw [valuesReb, valuesHold, hsh]
  · rw [totalReb, totalHold, hsh]

/-- Witness for C4: the scenario prices with period 5 > 3 − 1. -/
theorem no_rebalance_case_witness :
    cfgNoReb.nDates - 1 < cfgNoReb.rebalancePeriod ∧
    (rebLog cfgNoReb = [] ∧
      ∀ i, i < cfgNoReb.nDates →
        (∀ t, valuesReb cfgNoReb i t = valuesHold cfgNoReb i t) ∧
        totalReb cfgNoReb i = totalHold cfgNoReb i) :=
  ⟨by decide, no_rebalance_case cfgNoReb (by decide)⟩

/-- Claim C5: with a positive rebalance period, an event is logged at date
index `i` exactly when `i > 0 ∧ i % period = 0`: the list of logged date
indices equals the filtered date range, in ascending index order. -/
theorem rebLog_dates_exact (cfg : Config) (_hP : 0 < cfg.rebalancePeriod) :
    ((rebLog cfg).map fun ev => ev.dateIdx) =
      (List.range cfg.nDates).filter fun i =>
        decide (0 < i ∧ i % cfg.rebalancePeriod = 0) :=
  map_dateIdx_filterMap cfg (List.range cfg.nDates)

/-- Witness for C5 at the worked scenario: the one logged index is 2. -/
theorem rebLog_dates_exact_witness :
    0 < scenario.rebalancePeriod ∧
    ((rebLog scenario).map fun ev => ev.dateIdx) =
      (List.range scenario.nDates).filter fun i =>
        decide (0 < i ∧ i % scenario.rebalancePeriod = 0) :=
  ⟨by decide, rebLog_dates_exact scenario (by decide)⟩

/-- Claim C6 (counterexample): with prices A = [100, 110, 121],
B = [200, 190, 180.5] and equity 1,000,000, the code's initial share count for
A is 500000 / 100 = 5000, not the 2500 the claim states, and the
post-rebalance share counts are not 3115.08 and 2087.73. -/
theorem scenario_claim_false :
    initShares scenario 0 ≠ 2500 ∧
    (stateAt scenario 3).sharesReb 0 ≠ 311508 / 100 ∧
    (stateAt scenario 3).sharesReb 1 ≠ 208773 / 100 := by
  refine ⟨?_, ?_, ?_⟩
  · rw [scenario_init_A]
    norm_num
  · rw [scenario_post_shares_A]
    norm_num
  · rw [scenario_post_shares_B]
    norm_num

/-- Claim C6 (amended): for the stated inputs the code produces initial shares
A = 5000, B = 2500; at index 1 values A = 550000, B = 475000, total = 1025000,
no rebalance; at index 2 values A = 605000, B = 451250, total = 1056250, one
rebalance with target 528125 per asset, drift_A = 2460/169 ≈ 14.56 %,
transfer_A = −76875, transfer_B = 76875, and post-rebalance shares
A = 528125/121 ≈ 4364.67, B = 1056250/361 ≈ 2925.90. -/
theorem scenario_amended :
    initShares scenario 0 = 5000 ∧ initShares scenario 1 = 2500 ∧
    valuesReb scenario 1 0 = 550000 ∧ valuesReb scenario 1 1 = 475000 ∧
    totalReb scenario 1 = 1025000 ∧
    valuesReb scenario 2 0 = 605000 ∧ valuesReb scenario 2 1 = 451250 ∧
    totalReb scenario 2 = 1056250 ∧
    rebTarget scenario (stateAt scenario 2) 2 = 528125 ∧
    ((rebLog scenario).map fun ev =>
      (ev.dateIdx, ev.preValue 0, ev.preValue 1, ev.driftPct 0,
        ev.transfer 0, ev.transfer 1)) =
      [(2, 605000, 451250, 2460 / 169, -76875, 76875)] ∧
    (stateAt scenario 3).sharesReb 0 = 528125 / 121 ∧
    (stateAt scenario 3).sharesReb 1 = 1056250 / 361 := by
  refine ⟨scenario_init_A, scenario_init_B, scenario_value_1A, scenario_value_1B,
    scenario_total_1, scenario_value_2A, scenario_value_2B, scenario_total_2,
    scenario_target_2, ?_, scenario_post_shares_A, scenario_post_shares_B⟩
  rw [scenario_rebLog, List.map_cons, List.map_nil, scenarioEvent_preValue_A,
    scenarioEvent_preValue_B, scenarioEvent_drift_A, scenarioEvent_transfer_A,
    scenarioEvent_transfer_B]
  rfl

/-- Claim C7 (counterexample): with a negative price for asset A, the code
does not fail at all: the initial division yields share count −5000, the
simulation runs to completion over all 3 dates, and it even logs a rebalance
event — there is no DivisionError and no abort. -/
theorem division_claim_false :
    initShares cfgNeg 0 = -5000 ∧
    (simulate cfgNeg).1.length = 3 ∧
    (simulate cfgNeg).2.2 = [2] := by
  refine ⟨?_, ?_, cfgNeg_log_dates⟩
  · rw [initShares, targetWeight, show cfgNeg.price 0 0 = -100 from rfl]
    norm_num
  · simp [simulate]

/-- Claim C7 (amended): a non-positive price used as a divisor raises no
error: with a negative price the division succeeds, producing a negative
share count, and the simulation still emits full-length equity curves — the
source defines no DivisionError and never aborts on such input. -/
theorem negative_price_no_abort (cfg : Config) (t : Fin cfg.nAssets)
    (hE : 0 < cfg.initialEquity) (hn : 0 < cfg.nAssets)
    (hp : cfg.price 0 t < 0) :
    initShares cfg t < 0 ∧ (simulate cfg).1.length = cfg.nDates ∧
      (simulate cfg).2.1.length = cfg.nDates := by
  refine ⟨?_, by simp [simulate], by simp [simulate]⟩
  rw [initShares]
  apply div_neg_of_pos_of_neg _ hp
  apply mul_pos hE
  rw [targetWeight]
  exact one_div_pos.mpr (by exact_mod_cast hn)

/-- Witness for the amended C7 at the concrete negative-price configuration. -/
theorem negative_price_no_abort_witness :
    ((0 : ℚ) < cfgNeg.initialEquity ∧ 0 < cfgNeg.nAssets ∧
      cfgNeg.price 0 0 < 0) ∧
    (initShares cfgNeg 0 < 0 ∧ (simulate cfgNeg).1.length = cfgNeg.nDates ∧
      (simulate cfgNeg).2.1.length = cfgNeg.nDates) :=
  ⟨⟨by norm_num, by norm_num, by norm_num [show cfgNeg.price 0 0 = -100 from rfl]⟩,
   negative_price_no_abort cfgNeg 0 (by norm_num) (by norm_num)
     (by norm_num [show cfgNeg.price 0 0 = -100 from rfl])⟩

/-- Claim C8: a ticker count outside [2, 5] is rejected before anything else
runs: the run returns the validation error, and the result does not depend on
the price data at all — no fetch, no simulation, no curves, no log. -/
theorem invalid_ticker_count (nTickers nDates : Nat) (fetch : Nat → Nat → ℚ)
    (E : ℚ) (P : Nat) (h : ¬(2 ≤ nTickers ∧ nTickers ≤ 5)) :
    runApp nTickers nDates fetch E P = Except.error (AppError.tickerCount nTickers) ∧
    ∀ g : Nat → Nat → ℚ, runApp nTickers nDates fetch E P = runApp nTickers nDates g E P := by
  constructor
  · rw [runApp, if_neg h]
  · intro g
    rw [runApp, runApp, if_neg h, if_neg h]

/-- Witness for C8 with one ticker. -/
theorem invalid_ticker_count_witness :
    ¬(2 ≤ 1 ∧ 1 ≤ 5) ∧
    (runApp 1 3 (fun _ _ => 7) 100 2 = Except.error (AppError.tickerCount 1) ∧
      ∀ g : Nat → Nat → ℚ, runApp 1 3 (fun _ _ => 7) 100 2 = runApp 1 3 g 100 2) :=
  ⟨by decide, invalid_ticker_count 1 3 (fun _ _ => 7) 100 2 (by decide)⟩

/-- Claim C9: with positive initial equity and strictly positive prices at
every date, both trackers hold non-negative share counts at every date index,
after initialization and after every rebalance. -/
theorem shares_nonneg (cfg : Config) (hE : 0 < cfg.initialEquity)
    (hp : ∀ i t, 0 < cfg.price i t) :
    ∀ i t, 0 ≤ (stateAt cfg i).sharesReb t ∧ 0 ≤ (stateAt cfg i).sharesHold t := by
  have hinit : ∀ t, 0 ≤ initShares cfg t := by
    intro t
    apply div_nonneg _ (hp 0 t).le
    apply mul_nonneg hE.le
    rw [targetWeight]
    positivity
  intro i
  induction i with
  | zero => exact fun t => ⟨hinit t, hinit t⟩
  | succ i ih =>
    intro t
    have hstep : stateAt cfg (i + 1) = (step cfg (stateAt cfg i) i).1 := rfl
    by_cases h : 0 < i ∧ i % cfg.rebalancePeriod = 0
    · rw [hstep, step_fst_due cfg _ i h]
      refine ⟨?_, (ih t).2⟩
      show 0 ≤ rebTarget cfg (stateAt cfg i) i / cfg.price i t
      apply div_nonneg _ (hp i t).le
      rw [rebTarget, targetWeight]
      apply mul_nonneg
      · rw [trackerTotal]
        refine Finset.sum_nonneg fun s _ => ?_
        exact mul_nonneg (ih s).1 (hp i s).le
      · positivity
    · rw [hstep, step_fst_not_due cfg _ i h]
      exact ih t

/-- Witness for C9 at the worked scenario, date index 3, asset A. -/
theorem shares_nonneg_witness :
    (0 : ℚ) < scenario.initialEquity ∧
    (0 ≤ (stateAt scenario 3).sharesReb 0 ∧
      0 ≤ (stateAt scenario 3).sharesHold 0) :=
  ⟨by norm_num, shares_nonneg scenario (by norm_num) scenario_price_pos 3 0⟩

/-- Claim C10: rebalancing is unconditional at every cadence boundary inside
the series: an event is always logged there, its transfers are exactly
`target − value`, and if every asset already sits at the equal-weight target
the event still occurs with all transfers zero — no drift threshold gates it. -/
theorem rebalance_unconditional (cfg : Config) (i : Nat)
    (h0 : 0 < i) (hm : i % cfg.rebalancePeriod = 0) (hi : i < cfg.nDates) :
    ∃ ev ∈ rebLog cfg, ev.dateIdx = i ∧
      (∀ t, ev.transfer t = totalReb cfg i * targetWeight cfg - valuesReb cfg i t) ∧
      ((∀ t, valuesReb cfg i t = totalReb cfg i * targetWeight cfg) →
        ∀ t, ev.transfer t = 0) := by
  refine ⟨⟨i, fun t => trackerValue cfg (stateAt cfg i).sharesReb i t,
    fun t => (trackerValue cfg (stateAt cfg i).sharesReb i t /
      rebTarget cfg (stateAt cfg i) i - 1) * 100,
    fun t => rebTarget cfg (stateAt cfg i) i -
      trackerValue cfg (stateAt cfg i).sharesReb i t⟩,
    List.mem_filterMap.mpr ⟨i, List.mem_range.mpr hi, step_snd_due cfg _ i ⟨h0, hm⟩⟩,
    rfl, fun t => rfl, ?_⟩
  intro hall t
  show rebTarget cfg (stateAt cfg i) i -
      trackerValue cfg (stateAt cfg i).sharesReb i t = 0
  rw [sub_eq_zero,
    show trackerValue cfg (stateAt cfg i).sharesReb i t = valuesReb cfg i t from rfl,
    hall t]
  rfl

/-- Witness for C10: two assets with identical constant prices, period 1:
the boundary at index 1 rebalances although every asset is already at target. -/
theorem rebalance_unconditional_witness :
    (0 < 1 ∧ 1 % cfgFlat.rebalancePeriod = 0 ∧ 1 < cfgFlat.nDates) ∧
    (∃ ev ∈ rebLog cfgFlat, ev.dateIdx = 1 ∧
      (∀ t, ev.transfer t = totalReb cfgFlat 1 * targetWeight cfgFlat -
        valuesReb cfgFlat 1 t) ∧
      ((∀ t, valuesReb cfgFlat 1 t = totalReb cfgFlat 1 * targetWeight cfgFlat) →
        ∀ t, ev.transfer t = 0)) :=
  ⟨⟨by decide, by decide, by decide⟩,
   rebalance_unconditional cfgFlat 1 (by decide) (by decide) (by decide)⟩

end Rebalance

